import Mathlib

/-!
Shallow embedding of the strimlitbook notebook-to-renderer pipeline
(`strimlitbook/parse/outputs.py`, `strimlitbook/parse/parse.py`).

Python dictionaries are modelled as association lists, field access that can
raise `KeyError` is modelled with `Except String`, and every Streamlit call is
recorded as a `RenderCall` value so that display functions return traces.
-/

namespace Strimlitbook

/-- Value stored under one MIME key of a raw output record's `data` map.
Notebook JSON stores either a list of string fragments (`text/html`,
`text/plain`), a plain base64 string (`image/png`), or a Plotly figure object
with `data`, `layout` and optional `config` entries. -/
inductive MimeData where
  | fragments (l : List String)
  | text (s : String)
  | fig (pdata : String) (playout : String) (pconfig : Option String)
  deriving Repr, DecidableEq

/-- A raw output record of a code cell, as read from the notebook JSON.
Fields a record may lack are `Option`; reading an absent field is a
`KeyError`. -/
structure RawOutput where
  output_type : String
  text : Option (List String) := none
  data : Option (List (String × MimeData)) := none
  ename : Option String := none
  deriving Repr, DecidableEq

/-- Payload of one classified output: a plain string for the textual kinds, or
the Plotly `data`/`layout`/`config` triple. -/
inductive OutPayload where
  | str (s : String)
  | plotlyFig (pdata : String) (playout : String) (pconfig : Option String)
  deriving Repr, DecidableEq

/-- Result of classifying one raw output record with one matcher: a single
kind/payload association (Python: a one-entry dict). -/
structure ClassifiedOutput where
  kind : String
  payload : OutPayload
  deriving Repr, DecidableEq

/-- Python `d[k]` on a possibly-absent field: `KeyError` when the field is
missing. -/
def getField (o : Option α) (k : String) : Except String α :=
  match o with
  | some v => .ok v
  | none => .error ("KeyError: " ++ k)

/-- Python `k in d.keys()` on an association list. -/
def hasKey (d : List (String × MimeData)) (k : String) : Bool :=
  d.any (fun p => p.1 == k)

/-- Python `d[k]` on an association list already known to be present;
`KeyError` otherwise. -/
def getKey (d : List (String × MimeData)) (k : String) : Except String MimeData :=
  match d.find? (fun p => p.1 == k) with
  | some p => .ok p.2
  | none => .error ("KeyError: " ++ k)

/-- Python `''.join(v)` on a MIME value: joins a fragment list, is the
identity on a string (joining its characters), and is a `TypeError` on a
figure object. -/
def mimeJoin (v : MimeData) : Except String String :=
  match v with
  | .fragments l => .ok (String.join l)
  | .text s => .ok s
  | .fig _ _ _ => .error "TypeError: join"

/-- ASCII whitespace recognised by Python `str.strip()`. -/
def pyIsSpace (c : Char) : Bool :=
  c = ' ' ∨ c = '\t' ∨ c = '\n' ∨ c = '\r' ∨ c = '\x0b' ∨ c = '\x0c'

/-- Python `s.strip()`: drop leading and trailing whitespace of a string. -/
def pyStrip (s : String) : String :=
  ⟨((s.data.dropWhile pyIsSpace).reverse.dropWhile pyIsSpace).reverse⟩

/-- Python `v.strip()` on a MIME value: only a string has `.strip`. -/
def mimeStrip (v : MimeData) : Except String String :=
  match v with
  | .text s => .ok (pyStrip s)
  | _ => .error "AttributeError: strip"

/-- The Plotly MIME key used by every matcher that mentions Plotly. -/
def plotly_key : String := "application/vnd.plotly.v1+json"

/-- Embedding of `_parse_stream_output`: a record whose `output_type` is
`stream` yields `stdout` with the joined `text` fragments; any other record
yields nothing. -/
def _parse_stream_output (output : RawOutput) : Except String (Option ClassifiedOutput) :=
  if output.output_type = "stream" then
    match getField output.text "text" with
    | .error e => .error e
    | .ok t => .ok (some ⟨"stdout", .str (String.join t)⟩)
  else
    .ok none

/-- Embedding of `_parse_plotly_output`: a `display_data`/`execute_result`
record whose `data` map holds the Plotly MIME key yields `plotly_fig` with the
`data`/`layout`/`config` triple (`config` optional); with the key absent the
empty dict is returned, which is falsy, i.e. nothing. -/
def _parse_plotly_output (output : RawOutput) : Except String (Option ClassifiedOutput) :=
  if output.output_type = "display_data" ∨ output.output_type = "execute_result" then
    match getField output.data "data" with
    | .error e => .error e
    | .ok d =>
      if hasKey d plotly_key then
        match getKey d plotly_key with
        | .error e => .error e
        | .ok (.fig pd pl cfg) => .ok (some ⟨"plotly_fig", .plotlyFig pd pl cfg⟩)
        | .ok _ => .error "TypeError: subscript"
      else
        .ok none
  else
    .ok none

/-- Embedding of `_parse_html_output`: a `display_data`/`execute_result`
record with a `text/html` key and no Plotly key yields `text/html` with the
joined fragments. -/
def _parse_html_output (output : RawOutput) : Except String (Option ClassifiedOutput) :=
  if output.output_type = "display_data" ∨ output.output_type = "execute_result" then
    match getField output.data "data" with
    | .error e => .error e
    | .ok d =>
      if hasKey d "text/html" ∧ ¬ hasKey d plotly_key then
        match getKey d "text/html" with
        | .error e => .error e
        | .ok v =>
          match mimeJoin v with
          | .error e => .error e
          | .ok s => .ok (some ⟨"text/html", .str s⟩)
      else
        .ok none
  else
    .ok none

/-- Embedding of `_parse_image_output`: a `display_data`/`execute_result`
record without the Plotly key but with an `image/png` key yields `image/png`
with the stripped payload string. -/
def _parse_image_output (output : RawOutput) : Except String (Option ClassifiedOutput) :=
  if output.output_type = "display_data" ∨ output.output_type = "execute_result" then
    match getField output.data "data" with
    | .error e => .error e
    | .ok d =>
      if ¬ hasKey d plotly_key then
        if hasKey d "image/png" then
          match getKey d "image/png" with
          | .error e => .error e
          | .ok v =>
            match mimeStrip v with
            | .error e => .error e
            | .ok s => .ok (some ⟨"image/png", .str s⟩)
        else
          .ok none
      else
        .ok none
  else
    .ok none

/-- Embedding of `_parse_plain_text_output`: a `display_data`/`execute_result`
record with a `text/plain` key and no `text/html` key yields `text/plain` with
the joined fragments. -/
def _parse_plain_text_output (output : RawOutput) : Except String (Option ClassifiedOutput) :=
  if output.output_type = "display_data" ∨ output.output_type = "execute_result" then
    match getField output.data "data" with
    | .error e => .error e
    | .ok d =>
      if hasKey d "text/plain" ∧ ¬ hasKey d "text/html" then
        match getKey d "text/plain" with
        | .error e => .error e
        | .ok v =>
          match mimeJoin v with
          | .error e => .error e
          | .ok s => .ok (some ⟨"text/plain", .str s⟩)
      else
        .ok none
  else
    .ok none

/-- Embedding of `_parse_error_output`: a record whose `output_type` is
`error` yields the `error` kind with the record's `ename` field; the `data`
map is never read. -/
def _parse_error_output (output : RawOutput) : Except String (Option ClassifiedOutput) :=
  if output.output_type = "error" then
    match getField output.ename "ename" with
    | .error e => .error e
    | .ok en => .ok (some ⟨"error", .str en⟩)
  else
    .ok none

/-- The `parsing_functions` list of `Code._outputs`, in its order of
importance. -/
def parsing_functions : List (RawOutput → Except String (Option ClassifiedOutput)) :=
  [_parse_stream_output, _parse_plotly_output, _parse_html_output,
   _parse_image_output, _parse_plain_text_output, _parse_error_output]

/-- Sequential collection of matcher results: the first exception wins, every
non-`None` result is kept in order (the Python loop appends
`func(output) if func(output) else None` per function and filters the `None`s
afterwards). -/
def collectOutputs : List (Except String (Option ClassifiedOutput)) →
    Except String (List ClassifiedOutput)
  | [] => .ok []
  | a :: rest =>
    match a with
    | .error e => .error e
    | .ok r =>
      match collectOutputs rest with
      | .error e => .error e
      | .ok l => .ok (r.toList ++ l)

/-- Embedding of the inner loop of `Code._outputs` for one raw record: every
parsing function is applied, in the listed order, and each non-falsy result is
kept. -/
def classifyRecord (output : RawOutput) : Except String (List ClassifiedOutput) :=
  collectOutputs (parsing_functions.map (fun f => f output))

/-- Sequential classification of each record of a cell's output list,
concatenating the classified outputs in record order. -/
def classifyRecords : List RawOutput → Except String (List ClassifiedOutput)
  | [] => .ok []
  | o :: rest =>
    match classifyRecord o with
    | .error e => .error e
    | .ok l =>
      match classifyRecords rest with
      | .error e => .error e
      | .ok l2 => .ok (l ++ l2)

/-- Embedding of `Code._outputs`: `None` when the raw output list is empty,
otherwise the concatenation, in record order, of every classified output of
every record. -/
def code_outputs (outs : List RawOutput) : Except String (Option (List ClassifiedOutput)) :=
  if outs.length = 0 then .ok none
  else
    match classifyRecords outs with
    | .error e => .error e
    | .ok l => .ok (some l)

/-! ### Render calls and the output dispatcher (`parse.py`) -/

/-- One recorded call against the Streamlit renderer. A `with st.expander`
block is recorded as an `expander` node holding the calls made inside it. -/
inductive RenderCall where
  | markdown (s : String)
  | markdownHtml (s : String)
  | image (s : String)
  | code (s : String) (language : Option String)
  | dataframe (s : String)
  | plotly (pdata : String) (playout : String) (pconfig : Option String)
  | vegaLite (p : OutPayload)
  | errorBox (s : String)
  | expander (label : String) (body : List RenderCall)
  deriving Repr

/-- Renderer behind the `plotly_fig` key (`_display_plotly`). -/
def _display_plotly (p : OutPayload) : Except String RenderCall :=
  match p with
  | .plotlyFig pd pl cfg => .ok (.plotly pd pl cfg)
  | _ => .error "TypeError: plotly"

/-- Renderer behind the `altair_fig` key (`_display_vega_lite`). -/
def _display_vega_lite (p : OutPayload) : Except String RenderCall :=
  .ok (.vegaLite p)

/-- Renderer behind the `text/html` key (`_display_dataframe`). -/
def _display_dataframe (p : OutPayload) : Except String RenderCall :=
  match p with
  | .str s => .ok (.dataframe s)
  | _ => .error "TypeError: dataframe"

/-- Renderer behind the `image/png` key (`_display_image`). -/
def _display_image (p : OutPayload) : Except String RenderCall :=
  match p with
  | .str s => .ok (.image s)
  | _ => .error "TypeError: image"

/-- Renderer behind `stdout` and `text/plain`: `st.code` with the cell's
language (`_display_code = partial(st.code, language=...)`). -/
def _display_code (lang : String) (p : OutPayload) : Except String RenderCall :=
  match p with
  | .str s => .ok (.code s (some lang))
  | _ => .error "TypeError: code"

/-- Renderer behind the `error` key (`st.error`). -/
def _st_error (p : OutPayload) : Except String RenderCall :=
  match p with
  | .str s => .ok (.errorBox s)
  | _ => .error "TypeError: error"

/-- Embedding of the `display_keys` dict of `Code._display_outputs`: the
kind-to-renderer table, keyed by output-kind string. -/
def display_keys (lang : String) : List (String × (OutPayload → Except String RenderCall)) :=
  [("plotly_fig", _display_plotly),
   ("altair_fig", _display_vega_lite),
   ("text/html", _display_dataframe),
   ("image/png", _display_image),
   ("text/plain", fun p => _display_code lang p),
   ("stdout", fun p => _display_code lang p),
   ("error", _st_error)]

/-- Python `display_keys[key](value)`: renderer lookup by kind, a `KeyError`
when the kind has no entry. -/
def dispatchOutput (lang : String) (co : ClassifiedOutput) : Except String RenderCall :=
  match (display_keys lang).find? (fun p => p.1 == co.kind) with
  | some p => p.2 co.payload
  | none => .error ("KeyError: " ++ co.kind)

/-! ### Cells and the document model (`parse.py`) -/

/-- A raw notebook cell record as handed to `Cell.__init__`: cell type, the
tag list from `metadata.get("tags", [])`, the source fragments, the raw output
records (code cells) and the raw attachment map (markdown cells). -/
structure RawCell where
  cell_type : String
  tags : List String := []
  source : List String := []
  outputs : List RawOutput := []
  attachments : Option (List (String × List (String × String))) := none
  deriving Repr

/-- `Cell.__init__`: the source fragments are joined into one string. -/
def cellSource (c : RawCell) : String := String.join c.source

/-- Embedding of `Code._display_source`: a non-empty source is rendered as
one `st.code` call (default language), an empty source renders nothing. -/
def _display_source (c : RawCell) : List RenderCall :=
  if 0 < (cellSource c).length then [.code (cellSource c) none] else []

/-- Embedding of `Code._display_outputs`: nothing when `Code._outputs` is
`None`, otherwise one dispatched renderer call per classified output, in
order. -/
def _display_outputs (lang : String) (c : RawCell) : Except String (List RenderCall) :=
  match code_outputs c.outputs with
  | .error e => .error e
  | .ok none => .ok []
  | .ok (some outs) => outs.mapM (dispatchOutput lang)

/-- Embedding of `Code.display`: the tag-driven if/elif chain, in source
order (`skip`, then `hi`/`hide_input`, then `ho`/`hide_output`, then
`ci`/`collapsed_input`, then `co`/`collapsed_output`, else both parts). -/
def code_display (lang : String) (c : RawCell) : Except String (List RenderCall) :=
  if "skip" ∈ c.tags then .ok []
  else if "hi" ∈ c.tags ∨ "hide_input" ∈ c.tags then _display_outputs lang c
  else if "ho" ∈ c.tags ∨ "hide_output" ∈ c.tags then .ok (_display_source c)
  else if "ci" ∈ c.tags ∨ "collapsed_input" ∈ c.tags then
    match _display_outputs lang c with
    | .error e => .error e
    | .ok outs => .ok (.expander "See hidden source code..." (_display_source c) :: outs)
  else if "co" ∈ c.tags ∨ "collapsed_output" ∈ c.tags then
    match _display_outputs lang c with
    | .error e => .error e
    | .ok outs => .ok (_display_source c ++ [.expander "See hidden output..." outs])
  else
    match _display_outputs lang c with
    | .error e => .error e
    | .ok outs => .ok (_display_source c ++ outs)

/-- Embedding of `Markdown._attachments`: the payload strings of every
attachment, in map order, flattened over each attachment's MIME map. -/
def md_attachments (c : RawCell) : List String :=
  match c.attachments with
  | none => []
  | some raw => (raw.map (fun att => att.2.map (fun kv => kv.2))).flatten

/-! ### The inline-attachment marker pattern

`Markdown._display_parsing_attachments` splits the source with
`re.split(r"!\[.+]\(attachment:.+\)", source)`. The pattern is embedded as a
backtracking matcher: `.` matches anything but a newline, `.+` is greedy
(longest first), and `re.split` scans for the leftmost match, emits the text
before it, and resumes after it. -/

/-- What `.` matches in the pattern: any character except a newline. -/
def reDot (c : Char) : Bool := c ≠ '\n'

/-- The literal middle part `](attachment:` of the marker pattern. -/
def attachLit : List Char := [']', '(', 'a', 't', 't', 'a', 'c', 'h', 'm', 'e', 'n', 't', ':']

/-- Greedy match of the trailing `.+\)` of the pattern: try the longest
dot-run first, returning the number of characters consumed (run plus the
closing parenthesis). -/
def tryTailB (l : List Char) : Nat → Option Nat
  | 0 => none
  | b + 1 =>
    if (l.take (b + 1)).all reDot ∧ l.get? (b + 1) = some ')' then some (b + 2)
    else tryTailB l b

/-- Greedy match of `.+](attachment:.+\)` at the start of `rest`: try the
longest dot-run for the first `.+` first, backtracking to shorter runs when
the remainder fails; returns the total number of characters consumed. -/
def tryHeadA (rest : List Char) : Nat → Option Nat
  | 0 => none
  | a + 1 =>
    if (rest.take (a + 1)).all reDot ∧ attachLit.isPrefixOf (rest.drop (a + 1)) then
      match tryTailB (rest.drop (a + 1 + 13)) (rest.drop (a + 1 + 13)).length with
      | some b => some (a + 1 + 13 + b)
      | none => tryHeadA rest a
    else tryHeadA rest a

/-- Match of the whole marker pattern `!\[.+]\(attachment:.+\)` at the start
of `l`, returning the match length. -/
def matchAt (l : List Char) : Option Nat :=
  match l with
  | '!' :: '[' :: rest =>
    match tryHeadA rest rest.length with
    | some n => some (n + 2)
    | none => none
  | _ => none

/-- Leftmost match of the marker pattern in `l`, as (start index, length);
`i` is the index of the head of `l` in the original string. -/
def findMatch : List Char → Nat → Option (Nat × Nat)
  | [], _ => none
  | l@(_ :: t), i =>
    match matchAt l with
    | some len => some (i, len)
    | none => findMatch t (i + 1)

/-- Fuelled scan of `re.split`: emit the text before each leftmost match and
resume after it; every match consumes at least one character, so fuel equal
to the string length suffices. -/
def reSplitAux : Nat → List Char → List (List Char)
  | 0, l => [l]
  | fuel + 1, l =>
    match findMatch l 0 with
    | none => [l]
    | some (i, len) => l.take i :: reSplitAux fuel (l.drop (i + len))

/-- Number of marker matches the same scan finds. -/
def reCountAux : Nat → List Char → Nat
  | 0, _ => 0
  | fuel + 1, l =>
    match findMatch l 0 with
    | none => 0
    | some (i, len) => reCountAux fuel (l.drop (i + len)) + 1

/-- `re.split(r"!\[.+]\(attachment:.+\)", s)`. -/
def attachmentSplit (s : String) : List String :=
  (reSplitAux s.data.length s.data).map (fun l => String.mk l)

/-- Number of inline-attachment markers found in `s` by the same scan. -/
def attachmentMarkerCount (s : String) : Nat :=
  reCountAux s.data.length s.data

/-- Embedding of `Markdown._display_parsing_attachments`: with attachments
present, the source is split on every marker and each segment is rendered
with `st.markdown`, followed by `_display_image` on the attachment at the
segment's index when that index exists (an `IndexError` is swallowed);
without attachments, one `st.markdown(..., unsafe_allow_html=True)` call. -/
def _display_parsing_attachments (c : RawCell) : List RenderCall :=
  let atts := md_attachments c
  if atts.length ≠ 0 then
    ((attachmentSplit (cellSource c)).enum.map
      (fun p => RenderCall.markdown p.2 ::
        (match atts[p.1]? with
         | some a => [RenderCall.image a]
         | none => []))).flatten
  else
    [.markdownHtml (cellSource c)]

/-- Embedding of `Markdown.display`: `skip` renders nothing, otherwise `ci`
wraps the attachment-aware rendering in an expander, otherwise it is rendered
directly. -/
def markdown_display (c : RawCell) : List RenderCall :=
  if "skip" ∈ c.tags then []
  else if "ci" ∈ c.tags then
    [.expander "See collapsed cell" (_display_parsing_attachments c)]
  else _display_parsing_attachments c

/-- Notebook metadata as the model uses it: `kernelspec.language`. -/
structure NotebookMeta where
  language : String
  deriving Repr, DecidableEq

/-- A parsed cell of the book: `Code(cell, language)` or `Markdown(cell)`. -/
inductive ParsedCell where
  | code (c : RawCell) (language : String)
  | markdown (c : RawCell)
  deriving Repr

/-- Embedding of `StreamlitBook`: it keeps the raw cell list
(`self._cell_dict`) and the metadata. -/
structure StreamlitBook where
  cell_dict : List RawCell
  metadata : NotebookMeta
  deriving Repr

/-- `StreamlitBook.__init__`: each raw cell becomes a `Code` cell carrying
the notebook language when its type is `code`, else a `Markdown` cell. -/
def StreamlitBook.cells (b : StreamlitBook) : List ParsedCell :=
  b.cell_dict.map (fun c =>
    if c.cell_type = "code" then .code c b.metadata.language else .markdown c)

/-- `StreamlitBook.n_cells`. -/
def StreamlitBook.n_cells (b : StreamlitBook) : Nat := b.cells.length

/-- `StreamlitBook.split`: the raw cell list is sliced at the index and two
new books are built from the halves with the same metadata. -/
def StreamlitBook.split (b : StreamlitBook) (idx_to_split : Nat) :
    StreamlitBook × StreamlitBook :=
  (⟨b.cell_dict.take idx_to_split, b.metadata⟩,
   ⟨b.cell_dict.drop idx_to_split, b.metadata⟩)

/-! ### Specification-side descriptions and trace observers -/

/-- The attachment resolver as the specification words it: the split segments
are rendered in order, each followed by the attachment payload at the same
positional index when one exists; trailing segments have no image, excess
attachments are dropped. Stated separately from the code's enumeration loop
so the two can be compared. -/
def pairSegs : List String → List String → List RenderCall
  | [], _ => []
  | s :: ss, [] => .markdown s :: pairSegs ss []
  | s :: ss, a :: rest => .markdown s :: .image a :: pairSegs ss rest

/-- The image payloads rendered by a trace, in order. -/
def imageCalls : List RenderCall → List String
  | [] => []
  | .image s :: r => s :: imageCalls r
  | _ :: r => imageCalls r

/-- The markdown segments rendered by a trace, in order. -/
def markdownCalls : List RenderCall → List String
  | [] => []
  | .markdown s :: r => s :: markdownCalls r
  | _ :: r => markdownCalls r

/-- A `display_data` record carrying both an `image/png` payload and a
`text/plain` payload (the shape every matplotlib figure output has). -/
def pngWithReprRecord : RawOutput :=
  { output_type := "display_data",
    data := some [("image/png", .text " abc "), ("text/plain", .fragments ["x", "y"])] }

/-- A `display_data` record carrying a Plotly payload together with a
`text/plain` payload and no `text/html` payload. -/
def plotlyWithReprRecord : RawOutput :=
  { output_type := "display_data",
    data := some [(plotly_key, .fig "D" "L" none), ("text/plain", .fragments ["repr"])] }

/-- A stream record with two text fragments. -/
def streamRecord : RawOutput :=
  { output_type := "stream", text := some ["a", "b"] }

/-- An error record with no payload map at all. -/
def errorRecord : RawOutput :=
  { output_type := "error", ename := some "ValueError" }

/-- A markdown cell with one inline-attachment marker and one attachment. -/
def mdCellWithAttachment : RawCell :=
  { cell_type := "markdown",
    source := ["see ![img](attachment:a.png)"],
    attachments := some [("a.png", [("image/png", "P")])] }

/-- A markdown cell with two attachments but no marker in the source. -/
def mdCellExcessAttachments : RawCell :=
  { cell_type := "markdown",
    source := ["text only"],
    attachments := some [("a.png", [("image/png", "P")]), ("b.png", [("image/png", "Q")])] }

/-- A markdown cell tagged with both `skip` and `ci`. -/
def skipCiCell : RawCell :=
  { cell_type := "markdown", tags := ["skip", "ci"], source := ["x"] }

/-- A code cell tagged with both `hide_input` and `hide_output`. -/
def hideBothCell : RawCell :=
  { cell_type := "code", tags := ["hide_input", "hide_output"],
    source := ["print(1)"], outputs := [streamRecord] }

/-- A code cell with no outputs and no tags. -/
def emptyOutputsCell : RawCell :=
  { cell_type := "code", source := ["print(1)"] }

/-- A two-cell book used to exercise the document model. -/
def exampleBook : StreamlitBook :=
  { cell_dict := [skipCiCell, emptyOutputsCell],
    metadata := { language := "python" } }

end Strimlitbook

namespace Strimlitbook

/-! ### Characterizations of the individual matchers -/

/-- A successful stream match forces a `stream` record and the `stdout` kind. -/
lemma stream_some {o : RawOutput} {x : ClassifiedOutput}
    (h : _parse_stream_output o = .ok (some x)) :
    o.output_type = "stream" ∧ x.kind = "stdout" := by
  unfold _parse_stream_output at h
  split at h <;> [skip; simp_all]
  split at h <;> simp_all
  obtain ⟨rfl, -⟩ := h
  simp_all

/-- A successful Plotly match forces a media record whose payload map holds
the Plotly key, and the `plotly_fig` kind. -/
lemma plotly_some {o : RawOutput} {x : ClassifiedOutput}
    (h : _parse_plotly_output o = .ok (some x)) :
    (o.output_type = "display_data" ∨ o.output_type = "execute_result") ∧
      (∃ d, o.data = some d ∧ hasKey d plotly_key = true) ∧ x.kind = "plotly_fig" := by
  unfold _parse_plotly_output at h
  split at h <;> [skip; simp_all]
  split at h <;> [simp_all; skip]
  split at h <;> [skip; simp_all]
  split at h <;> simp_all
  obtain ⟨rfl, -⟩ := h
  cases ho : o.data <;> simp_all [getField]

/-- A successful HTML match forces a payload map with `text/html` and without
the Plotly key, and the `text/html` kind. -/
lemma html_some {o : RawOutput} {x : ClassifiedOutput}
    (h : _parse_html_output o = .ok (some x)) :
    (∃ d, o.data = some d ∧ hasKey d "text/html" = true ∧ hasKey d plotly_key = false) ∧
      x.kind = "text/html" := by
  unfold _parse_html_output at h
  split at h <;> [skip; simp_all]
  split at h <;> [simp_all; skip]
  split at h <;> [skip; simp_all]
  split at h <;> [simp_all; skip]
  split at h <;> simp_all
  obtain ⟨rfl, -⟩ := h
  cases ho : o.data <;> simp_all [getField]

/-- A successful image match forces a payload map without the Plotly key, and
the `image/png` kind. -/
lemma image_some {o : RawOutput} {x : ClassifiedOutput}
    (h : _parse_image_output o = .ok (some x)) :
    (∃ d, o.data = some d ∧ hasKey d plotly_key = false) ∧ x.kind = "image/png" := by
  unfold _parse_image_output at h
  split at h <;> [skip; simp_all]
  split at h <;> [simp_all; skip]
  split at h <;> [skip; simp_all]
  split at h <;> [skip; simp_all]
  split at h <;> [simp_all; skip]
  split at h <;> simp_all
  obtain ⟨rfl, -⟩ := h
  cases ho : o.data <;> simp_all [getField]

/-- A successful plain-text match forces a payload map without `text/html`,
and the `text/plain` kind. -/
lemma plain_some {o : RawOutput} {x : ClassifiedOutput}
    (h : _parse_plain_text_output o = .ok (some x)) :
    (∃ d, o.data = some d ∧ hasKey d "text/html" = false) ∧ x.kind = "text/plain" := by
  unfold _parse_plain_text_output at h
  split at h <;> [skip; simp_all]
  split at h <;> [simp_all; skip]
  split at h <;> [skip; simp_all]
  split at h <;> [simp_all; skip]
  split at h <;> simp_all
  obtain ⟨rfl, -⟩ := h
  cases ho : o.data <;> simp_all [getField]

/-- A successful error match forces an `error` record and the `error` kind. -/
lemma error_some {o : RawOutput} {x : ClassifiedOutput}
    (h : _parse_error_output o = .ok (some x)) :
    o.output_type = "error" ∧ x.kind = "error" := by
  unfold _parse_error_output at h
  split at h <;> [skip; simp_all]
  split at h <;> simp_all
  obtain ⟨rfl, -⟩ := h
  simp_all

/-- A record that is not a stream record never gets the `stdout` kind. -/
lemma stream_none {o : RawOutput} (ht : o.output_type ≠ "stream") :
    _parse_stream_output o = .ok none := by
  unfold _parse_stream_output
  rw [if_neg ht]

/-- A record that is not an error record never gets the `error` kind. -/
lemma error_none {o : RawOutput} (ht : o.output_type ≠ "error") :
    _parse_error_output o = .ok none := by
  unfold _parse_error_output
  rw [if_neg ht]

/-- A record that is not a media record never matches the Plotly matcher. -/
lemma plotly_none_type {o : RawOutput}
    (ht : ¬(o.output_type = "display_data" ∨ o.output_type = "execute_result")) :
    _parse_plotly_output o = .ok none := by
  unfold _parse_plotly_output
  rw [if_neg ht]

/-- A record that is not a media record never matches the HTML matcher. -/
lemma html_none_type {o : RawOutput}
    (ht : ¬(o.output_type = "display_data" ∨ o.output_type = "execute_result")) :
    _parse_html_output o = .ok none := by
  unfold _parse_html_output
  rw [if_neg ht]

/-- A record that is not a media record never matches the image matcher. -/
lemma image_none_type {o : RawOutput}
    (ht : ¬(o.output_type = "display_data" ∨ o.output_type = "execute_result")) :
    _parse_image_output o = .ok none := by
  unfold _parse_image_output
  rw [if_neg ht]

/-- A record that is not a media record never matches the plain-text matcher. -/
lemma plain_none_type {o : RawOutput}
    (ht : ¬(o.output_type = "display_data" ∨ o.output_type = "execute_result")) :
    _parse_plain_text_output o = .ok none := by
  unfold _parse_plain_text_output
  rw [if_neg ht]

/-- A payload map without the Plotly key never matches the Plotly matcher. -/
lemma plotly_none_nokey {o : RawOutput} {d} (hd : o.data = some d)
    (hp : hasKey d plotly_key = false) :
    _parse_plotly_output o = .ok none := by
  unfold _parse_plotly_output
  split <;> [skip; rfl]
  simp [getField, hd, hp]

/-- A payload map holding the Plotly key never matches the HTML matcher. -/
lemma html_none_plotly {o : RawOutput} {d} (hd : o.data = some d)
    (hp : hasKey d plotly_key = true) :
    _parse_html_output o = .ok none := by
  unfold _parse_html_output
  split <;> [skip; rfl]
  simp [getField, hd, hp]

/-- A payload map holding the Plotly key never matches the image matcher. -/
lemma image_none_plotly {o : RawOutput} {d} (hd : o.data = some d)
    (hp : hasKey d plotly_key = true) :
    _parse_image_output o = .ok none := by
  unfold _parse_image_output
  split <;> [skip; rfl]
  simp [getField, hd, hp]

/-- A payload map holding `text/html` never matches the plain-text matcher. -/
lemma plain_none_html {o : RawOutput} {d} (hd : o.data = some d)
    (hh : hasKey d "text/html" = true) :
    _parse_plain_text_output o = .ok none := by
  unfold _parse_plain_text_output
  split <;> [skip; rfl]
  simp [getField, hd, hh]

/-! ### Decomposing the classification of one record -/

/-- A successful classification of one record decomposes into one result per
matcher, concatenated in the fixed matcher order. -/
lemma classify_decomp {o : RawOutput} {l : List ClassifiedOutput}
    (h : classifyRecord o = .ok l) :
    ∃ r1 r2 r3 r4 r5 r6,
      _parse_stream_output o = .ok r1 ∧ _parse_plotly_output o = .ok r2 ∧
      _parse_html_output o = .ok r3 ∧ _parse_image_output o = .ok r4 ∧
      _parse_plain_text_output o = .ok r5 ∧ _parse_error_output o = .ok r6 ∧
      l = r1.toList ++ r2.toList ++ r3.toList ++ r4.toList ++ r5.toList ++ r6.toList := by
  have hc : classifyRecord o =
      collectOutputs [_parse_stream_output o, _parse_plotly_output o,
        _parse_html_output o, _parse_image_output o,
        _parse_plain_text_output o, _parse_error_output o] := rfl
  rw [hc] at h
  rcases h1 : _parse_stream_output o with e1 | r1 <;> rw [h1] at h <;>
    [simp [collectOutputs] at h; skip]
  rcases h2 : _parse_plotly_output o with e2 | r2 <;> rw [h2] at h <;>
    [simp [collectOutputs] at h; skip]
  rcases h3 : _parse_html_output o with e3 | r3 <;> rw [h3] at h <;>
    [simp [collectOutputs] at h; skip]
  rcases h4 : _parse_image_output o with e4 | r4 <;> rw [h4] at h <;>
    [simp [collectOutputs] at h; skip]
  rcases h5 : _parse_plain_text_output o with e5 | r5 <;> rw [h5] at h <;>
    [simp [collectOutputs] at h; skip]
  rcases h6 : _parse_error_output o with e6 | r6 <;> rw [h6] at h <;>
    [simp [collectOutputs] at h; skip]
  refine ⟨r1, r2, r3, r4, r5, r6, rfl, rfl, rfl, rfl, rfl, rfl, ?_⟩
  simp [collectOutputs] at h
  simp [← h]

/-- From two evaluations of the same matcher, identify the results. -/
lemma ok_eq_none {p : Except String (Option ClassifiedOutput)} {r : Option ClassifiedOutput}
    (h1 : p = .ok r) (h2 : p = .ok none) : r = none := by
  rw [h1] at h2
  exact Except.ok.inj h2

/-- Every kind a classified output of any record can carry is one of the six
kinds of the classifier's matchers. -/
lemma mem_classify_kinds {o : RawOutput} {l : List ClassifiedOutput} {co : ClassifiedOutput}
    (h : classifyRecord o = .ok l) (hm : co ∈ l) :
    co.kind = "stdout" ∨ co.kind = "plotly_fig" ∨ co.kind = "text/html" ∨
      co.kind = "image/png" ∨ co.kind = "text/plain" ∨ co.kind = "error" := by
  obtain ⟨r1, r2, r3, r4, r5, r6, h1, h2, h3, h4, h5, h6, rfl⟩ := classify_decomp h
  simp only [List.mem_append, Option.mem_toList, Option.mem_def] at hm
  rcases hm with ((((hm | hm) | hm) | hm) | hm) | hm
  · exact Or.inl (stream_some (hm ▸ h1)).2
  · exact Or.inr (Or.inl (plotly_some (hm ▸ h2)).2.2)
  · exact Or.inr (Or.inr (Or.inl (html_some (hm ▸ h3)).2))
  · exact Or.inr (Or.inr (Or.inr (Or.inl (image_some (hm ▸ h4)).2)))
  · exact Or.inr (Or.inr (Or.inr (Or.inr (Or.inl (plain_some (hm ▸ h5)).2))))
  · exact Or.inr (Or.inr (Or.inr (Or.inr (Or.inr (error_some (hm ▸ h6)).2))))

/-- The classification of one record never holds more than two outputs: a
stream or error record matches exactly its own matcher, and on a media record
the explicit exclusion predicates (`text/html` and `image/png` exclude the
Plotly key, `text/plain` excludes `text/html`) leave at most two matchers
able to fire together. -/
lemma classify_length_le_two {o : RawOutput} {l : List ClassifiedOutput}
    (h : classifyRecord o = .ok l) : l.length ≤ 2 := by
  obtain ⟨r1, r2, r3, r4, r5, r6, h1, h2, h3, h4, h5, h6, rfl⟩ := classify_decomp h
  rcases r1 with _ | x1
  case some =>
    obtain ⟨ht, -⟩ := stream_some h1
    have e2 := ok_eq_none h2 (plotly_none_type (by rw [ht]; rintro (h | h) <;> exact absurd h (by decide)))
    have e3 := ok_eq_none h3 (html_none_type (by rw [ht]; rintro (h | h) <;> exact absurd h (by decide)))
    have e4 := ok_eq_none h4 (image_none_type (by rw [ht]; rintro (h | h) <;> exact absurd h (by decide)))
    have e5 := ok_eq_none h5 (plain_none_type (by rw [ht]; rintro (h | h) <;> exact absurd h (by decide)))
    have e6 := ok_eq_none h6 (error_none (by rw [ht]; intro h; exact absurd h (by decide)))
    subst e2 e3 e4 e5 e6
    simp
  rcases r6 with _ | x6
  case some =>
    obtain ⟨ht, -⟩ := error_some h6
    have e2 := ok_eq_none h2 (plotly_none_type (by rw [ht]; rintro (h | h) <;> exact absurd h (by decide)))
    have e3 := ok_eq_none h3 (html_none_type (by rw [ht]; rintro (h | h) <;> exact absurd h (by decide)))
    have e4 := ok_eq_none h4 (image_none_type (by rw [ht]; rintro (h | h) <;> exact absurd h (by decide)))
    have e5 := ok_eq_none h5 (plain_none_type (by rw [ht]; rintro (h | h) <;> exact absurd h (by decide)))
    subst e2 e3 e4 e5
    simp
  rcases r3 with _ | x3
  case some =>
    obtain ⟨⟨d, hd, hh, hp⟩, -⟩ := html_some h3
    have e2 := ok_eq_none h2 (plotly_none_nokey hd hp)
    have e5 := ok_eq_none h5 (plain_none_html hd hh)
    subst e2 e5
    cases r4 <;> simp
  rcases r4 with _ | x4
  case some =>
    obtain ⟨⟨d, hd, hp⟩, -⟩ := image_some h4
    have e2 := ok_eq_none h2 (plotly_none_nokey hd hp)
    subst e2
    cases r5 <;> simp
  cases r2 <;> cases r5 <;> simp

/-- On a media record whose payload map holds the Plotly key, the Plotly
matcher fires whenever it returns at all. -/
lemma plotly_fires {o : RawOutput} {d : List (String × MimeData)}
    {r : Option ClassifiedOutput}
    (hot : o.output_type = "display_data" ∨ o.output_type = "execute_result")
    (hd : o.data = some d) (hp : hasKey d plotly_key = true)
    (h : _parse_plotly_output o = .ok r) :
    ∃ x, r = some x ∧ x.kind = "plotly_fig" := by
  unfold _parse_plotly_output at h
  rw [if_pos hot, hd] at h
  simp only [getField] at h
  rw [if_pos (by simp [hp])] at h
  rcases hk : getKey d plotly_key with e | v <;> rw [hk] at h
  · simp at h
  · cases v with
    | fragments l2 => simp at h
    | text s2 => simp at h
    | fig pd pl cfg => exact ⟨_, (Except.ok.inj h).symm, rfl⟩

/-! ### The split/pair structure of the attachment resolver -/

/-- The fuelled split always produces one segment more than the number of
matches the same scan finds. -/
lemma reSplitAux_length : ∀ (fuel : Nat) (l : List Char),
    (reSplitAux fuel l).length = reCountAux fuel l + 1 := by
  intro fuel
  induction fuel with
  | zero => intro l; simp [reSplitAux, reCountAux]
  | succ n ih =>
    intro l
    cases hf : findMatch l 0 with
    | none => simp [reSplitAux, reCountAux, hf]
    | some p => simp [reSplitAux, reCountAux, hf, ih]

/-- Splitting on the marker pattern yields `N + 1` segments for `N` markers
found. -/
lemma attachmentSplit_length (s : String) :
    (attachmentSplit s).length = attachmentMarkerCount s + 1 := by
  simp [attachmentSplit, attachmentMarkerCount, reSplitAux_length]

/-- The enumeration loop of `_display_parsing_attachments`, started at index
`k`, renders exactly the positional pairing of the segments with the
attachments from index `k` on. -/
lemma enum_loop_eq_pairSegs (atts : List String) :
    ∀ (segs : List String) (k : Nat),
      ((segs.enumFrom k).map (fun p => RenderCall.markdown p.2 ::
        (match atts[p.1]? with
         | some a => [RenderCall.image a]
         | none => []))).flatten = pairSegs segs (atts.drop k) := by
  intro segs
  induction segs with
  | nil => intro k; simp [pairSegs]
  | cons s ss ih =>
    intro k
    rw [List.enumFrom_cons]
    cases hd : atts.drop k with
    | nil =>
      have hget : atts[k]? = none := by
        rw [← List.head?_drop, hd]; rfl
      have hd1 : atts.drop (k + 1) = [] := by
        rw [← List.tail_drop, hd]; rfl
      have := ih (k + 1)
      rw [hd1] at this
      simp [pairSegs, hget, this]
    | cons a rest =>
      have hget : atts[k]? = some a := by
        rw [← List.head?_drop, hd]; rfl
      have hd1 : atts.drop (k + 1) = rest := by
        rw [← List.tail_drop, hd]; rfl
      have := ih (k + 1)
      rw [hd1] at this
      simp [pairSegs, hget, this]

/-- With at least one attachment, the markdown display loop is exactly the
positional pairing of the split segments with the attachment payloads. -/
lemma display_attachments_eq_pairSegs (c : RawCell) (h : md_attachments c ≠ []) :
    _display_parsing_attachments c =
      pairSegs (attachmentSplit (cellSource c)) (md_attachments c) := by
  unfold _display_parsing_attachments
  rw [if_pos (by simpa using h)]
  have := enum_loop_eq_pairSegs (md_attachments c) (attachmentSplit (cellSource c)) 0
  simpa using this

/-- The images a positional pairing renders are exactly the attachments up to
the number of segments. -/
lemma imageCalls_pairSegs : ∀ (segs atts : List String),
    imageCalls (pairSegs segs atts) = atts.take segs.length := by
  intro segs
  induction segs with
  | nil => intro atts; simp [pairSegs, imageCalls]
  | cons s ss ih =>
    intro atts
    cases atts with
    | nil => simp [pairSegs, imageCalls, ih]
    | cons a rest => simp [pairSegs, imageCalls, ih]

/-- A positional pairing renders every text segment, in order. -/
lemma markdownCalls_pairSegs : ∀ (segs atts : List String),
    markdownCalls (pairSegs segs atts) = segs := by
  intro segs
  induction segs with
  | nil => intro atts; simp [pairSegs, markdownCalls]
  | cons s ss ih =>
    intro atts
    cases atts with
    | nil => simp [pairSegs, markdownCalls, ih]
    | cons a rest => simp [pairSegs, markdownCalls, ih]

end Strimlitbook

namespace Strimlitbook

/-! ### Claim theorems -/

/-- C1, counterexample: a `display_data` record carrying both `image/png` and
`text/plain` payloads is assigned BOTH kinds — classification is not a
first-match-wins selection, so "at most one output-kind per record" fails. -/
theorem single_kind_counterexample :
    classifyRecord pngWithReprRecord =
      .ok [⟨"image/png", .str "abc"⟩, ⟨"text/plain", .str "xy"⟩] ∧
    ¬ (∀ l, classifyRecord pngWithReprRecord = .ok l → l.length ≤ 1) := by
  refine ⟨rfl, fun hcl => ?_⟩
  have := hcl [⟨"image/png", .str "abc"⟩, ⟨"text/plain", .str "xy"⟩] rfl
  simp at this

/-- C1 (amended): every matcher is applied to every record and each match
contributes a classified output, so one record can receive more than one
output-kind; the per-matcher exclusion predicates still bound the number of
kinds assigned to a single record by two. -/
theorem classification_at_most_two_kinds (o : RawOutput) (l : List ClassifiedOutput)
    (h : classifyRecord o = .ok l) : l.length ≤ 2 :=
  classify_length_le_two h

/-- C1, witness at the image-plus-repr record. -/
theorem classification_at_most_two_kinds_witness :
    classifyRecord pngWithReprRecord =
      .ok [⟨"image/png", .str "abc"⟩, ⟨"text/plain", .str "xy"⟩] ∧
    ([⟨"image/png", .str "abc"⟩, ⟨"text/plain", .str "xy"⟩] :
      List ClassifiedOutput).length ≤ 2 :=
  ⟨rfl, classification_at_most_two_kinds pngWithReprRecord _ rfl⟩

/-- C2, counterexample: a `display_data` record carrying the Plotly key and a
`text/plain` payload (but no `text/html`) is classified as `plotly_fig` AND
as `text/plain`, so "never also yields text/plain for the same record"
fails. -/
theorem plotly_also_plain_counterexample :
    classifyRecord plotlyWithReprRecord =
      .ok [⟨"plotly_fig", .plotlyFig "D" "L" none⟩, ⟨"text/plain", .str "repr"⟩] ∧
    ¬ (∀ l, classifyRecord plotlyWithReprRecord = .ok l →
        ∀ co ∈ l, co.kind ≠ "text/plain") := by
  refine ⟨rfl, fun hcl => ?_⟩
  exact hcl _ rfl ⟨"text/plain", .str "repr"⟩ (by decide) rfl

/-- C2 (amended): a `display_data`/`execute_result` record whose payload map
holds the Plotly MIME key is classified as `plotly_fig` and never also as
`text/html`; it can however additionally be classified as `text/plain` when
the payload has `text/plain` without `text/html`. -/
theorem plotly_record_yields_plotly_not_html (o : RawOutput)
    (d : List (String × MimeData)) (l : List ClassifiedOutput)
    (hot : o.output_type = "display_data" ∨ o.output_type = "execute_result")
    (hd : o.data = some d) (hp : hasKey d plotly_key = true)
    (h : classifyRecord o = .ok l) :
    (∃ co ∈ l, co.kind = "plotly_fig") ∧ ∀ co ∈ l, co.kind ≠ "text/html" := by
  obtain ⟨r1, r2, r3, r4, r5, r6, h1, h2, h3, h4, h5, h6, rfl⟩ := classify_decomp h
  obtain ⟨x, rfl, hk⟩ := plotly_fires hot hd hp h2
  have e3 := ok_eq_none h3 (html_none_plotly hd hp)
  subst e3
  refine ⟨⟨x, by simp, hk⟩, ?_⟩
  intro co hm
  simp only [List.mem_append, Option.mem_toList, Option.mem_def,
    Option.toList_none, List.not_mem_nil] at hm
  rcases hm with ((((hm | hm) | hm) | hm) | hm) | hm
  · rw [(stream_some (hm ▸ h1)).2]; decide
  · injection hm with hx; rw [← hx, hk]; decide
  · exact absurd hm (by simp)
  · rw [(image_some (hm ▸ h4)).2]; decide
  · rw [(plain_some (hm ▸ h5)).2]; decide
  · rw [(error_some (hm ▸ h6)).2]; decide

/-- C2, witness at the Plotly-plus-repr record. -/
theorem plotly_record_yields_plotly_not_html_witness :
    hasKey [(plotly_key, .fig "D" "L" none), ("text/plain", .fragments ["repr"])]
      plotly_key = true ∧
    ((∃ co ∈ [(⟨"plotly_fig", .plotlyFig "D" "L" none⟩ : ClassifiedOutput),
        ⟨"text/plain", .str "repr"⟩], co.kind = "plotly_fig") ∧
      ∀ co ∈ [(⟨"plotly_fig", .plotlyFig "D" "L" none⟩ : ClassifiedOutput),
        ⟨"text/plain", .str "repr"⟩], co.kind ≠ "text/html") :=
  ⟨rfl, plotly_record_yields_plotly_not_html plotlyWithReprRecord _ _
    (Or.inl rfl) rfl rfl rfl⟩

/-- C3: with at least one attachment, the source is split on every
inline-attachment marker into one segment more than the number of markers
found, and the display loop renders exactly the positional pairing of the
segments with the attachment payloads (segment i paired with attachment i),
in order, each segment followed by its paired image when one exists. -/
theorem markdown_attachment_positional_pairing (c : RawCell)
    (h : md_attachments c ≠ []) :
    (attachmentSplit (cellSource c)).length =
      attachmentMarkerCount (cellSource c) + 1 ∧
    _display_parsing_attachments c =
      pairSegs (attachmentSplit (cellSource c)) (md_attachments c) :=
  ⟨attachmentSplit_length _, display_attachments_eq_pairSegs c h⟩

/-- C3, witness at a one-marker one-attachment markdown cell. -/
theorem markdown_attachment_positional_pairing_witness :
    md_attachments mdCellWithAttachment ≠ [] ∧
    ((attachmentSplit (cellSource mdCellWithAttachment)).length =
        attachmentMarkerCount (cellSource mdCellWithAttachment) + 1 ∧
      _display_parsing_attachments mdCellWithAttachment =
        pairSegs (attachmentSplit (cellSource mdCellWithAttachment))
          (md_attachments mdCellWithAttachment)) :=
  ⟨by decide, markdown_attachment_positional_pairing mdCellWithAttachment (by decide)⟩

/-- C4: an `error` record — its payload map may be absent entirely — is
classified as exactly the `error` kind carrying the record's `ename`, and the
classification succeeds without ever reading a payload map. -/
theorem error_record_classification (o : RawOutput) (en : String)
    (htype : o.output_type = "error") (hen : o.ename = some en) :
    classifyRecord o = .ok [⟨"error", .str en⟩] := by
  have hc : classifyRecord o =
      collectOutputs [_parse_stream_output o, _parse_plotly_output o,
        _parse_html_output o, _parse_image_output o,
        _parse_plain_text_output o, _parse_error_output o] := rfl
  have h1 := stream_none (o := o) (by rw [htype]; decide)
  have h2 := plotly_none_type (o := o) (by rw [htype]; decide)
  have h3 := html_none_type (o := o) (by rw [htype]; decide)
  have h4 := image_none_type (o := o) (by rw [htype]; decide)
  have h5 := plain_none_type (o := o) (by rw [htype]; decide)
  have h6 : _parse_error_output o = .ok (some ⟨"error", .str en⟩) := by
    unfold _parse_error_output
    rw [if_pos htype, hen]
    rfl
  rw [hc, h1, h2, h3, h4, h5, h6]
  rfl

/-- C4, witness at an error record with no `data` field at all. -/
theorem error_record_classification_witness :
    errorRecord.output_type = "error" ∧ errorRecord.data = none ∧
    classifyRecord errorRecord = .ok [⟨"error", .str "ValueError"⟩] :=
  ⟨rfl, rfl, error_record_classification errorRecord "ValueError" rfl rfl⟩

/-- C5: splitting a book at any index `i ≤ n` yields two books whose
concatenated cell lists reproduce the original cell list, both carrying the
original metadata and hence the original code language. -/
theorem split_concat_reproduces_cells (b : StreamlitBook) (i : Nat)
    (h : i ≤ b.n_cells) :
    ((b.split i).1).cells ++ ((b.split i).2).cells = b.cells ∧
    ((b.split i).1).metadata = b.metadata ∧
    ((b.split i).2).metadata = b.metadata ∧
    ((b.split i).1).metadata.language = b.metadata.language ∧
    ((b.split i).2).metadata.language = b.metadata.language := by
  refine ⟨?_, rfl, rfl, rfl, rfl⟩
  simp only [StreamlitBook.split, StreamlitBook.cells]
  rw [← List.map_append, List.take_append_drop]

/-- C5, witness at a two-cell book split at index 1. -/
theorem split_concat_reproduces_cells_witness :
    1 ≤ exampleBook.n_cells ∧
    (((exampleBook.split 1).1).cells ++ ((exampleBook.split 1).2).cells =
        exampleBook.cells ∧
      ((exampleBook.split 1).1).metadata = exampleBook.metadata ∧
      ((exampleBook.split 1).2).metadata = exampleBook.metadata ∧
      ((exampleBook.split 1).1).metadata.language = exampleBook.metadata.language ∧
      ((exampleBook.split 1).2).metadata.language = exampleBook.metadata.language) :=
  ⟨by decide, split_concat_reproduces_cells exampleBook 1 (by decide)⟩

/-- C6: tag rules are first-match-wins in source order: a markdown cell whose
tag set holds both `skip` and `ci` renders nothing, and a code cell whose tag
set is `{hide_input, hide_output}` renders exactly its outputs (the source is
suppressed because `hide_input` is checked first). -/
theorem tag_priority_first_match_wins (md code : RawCell) (lang : String)
    (h1 : "skip" ∈ md.tags) (h2 : "ci" ∈ md.tags)
    (h3 : "hide_input" ∈ code.tags) (h4 : "hide_output" ∈ code.tags)
    (hsub : ∀ t ∈ code.tags, t = "hide_input" ∨ t = "hide_output") :
    markdown_display md = [] ∧ code_display lang code = _display_outputs lang code := by
  constructor
  · unfold markdown_display
    rw [if_pos h1]
  · unfold code_display
    rw [if_neg ?noskip, if_pos (Or.inr h3)]
    case noskip =>
      intro hs
      rcases hsub _ hs with h | h <;> exact absurd h (by decide)

/-- C6, witness at concretely tagged cells. -/
theorem tag_priority_first_match_wins_witness :
    "skip" ∈ skipCiCell.tags ∧ "hide_input" ∈ hideBothCell.tags ∧
    (markdown_display skipCiCell = [] ∧
      code_display "python" hideBothCell = _display_outputs "python" hideBothCell) :=
  ⟨by decide, by decide,
    tag_priority_first_match_wins skipCiCell hideBothCell "python"
      (by decide) (by decide) (by decide) (by decide) (by decide)⟩

/-- C7: every output-kind the classifier can produce has an entry in the
`display_keys` dispatch table, so the renderer lookup for any classified
output succeeds. -/
theorem dispatch_table_exhaustive (lang : String) (o : RawOutput)
    (l : List ClassifiedOutput) (co : ClassifiedOutput)
    (h : classifyRecord o = .ok l) (hm : co ∈ l) :
    ((display_keys lang).find? (fun p => p.1 == co.kind)).isSome = true := by
  rcases mem_classify_kinds h hm with hk | hk | hk | hk | hk | hk <;> rw [hk] <;> rfl

/-- C7, witness at a classified stream record. -/
theorem dispatch_table_exhaustive_witness :
    classifyRecord streamRecord = .ok [⟨"stdout", .str "ab"⟩] ∧
    ((display_keys "python").find?
      (fun p => p.1 == (⟨"stdout", OutPayload.str "ab"⟩ : ClassifiedOutput).kind)).isSome
      = true :=
  ⟨rfl, dispatch_table_exhaustive "python" streamRecord _ _ rfl (by decide)⟩

/-- C8: a code cell whose raw output list is empty has a `None` parsed output
list, its output dispatch performs zero renderer calls, and (with no tags)
its display renders exactly the source. -/
theorem empty_outputs_render_source_only (lang : String) (c : RawCell)
    (h : c.outputs = []) (ht : c.tags = []) :
    code_outputs c.outputs = .ok none ∧ _display_outputs lang c = .ok [] ∧
    code_display lang c = .ok (_display_source c) := by
  have h0 : code_outputs c.outputs = .ok none := by rw [h]; rfl
  have h1 : _display_outputs lang c = .ok [] := by
    unfold _display_outputs
    rw [h0]
  refine ⟨h0, h1, ?_⟩
  unfold code_display
  simp [ht, h1]

/-- C8, witness at an output-free untagged code cell. -/
theorem empty_outputs_render_source_only_witness :
    emptyOutputsCell.outputs = [] ∧ emptyOutputsCell.tags = [] ∧
    (code_outputs emptyOutputsCell.outputs = .ok none ∧
      _display_outputs "python" emptyOutputsCell = .ok [] ∧
      code_display "python" emptyOutputsCell = .ok (_display_source emptyOutputsCell)) :=
  ⟨rfl, rfl, empty_outputs_render_source_only "python" emptyOutputsCell rfl rfl⟩

/-- C9: an attachment/segment count mismatch never surfaces as an error: the
markdown texts rendered are exactly the split segments (trailing segments get
no image), and the images rendered are exactly the attachments truncated to
the number of segments (excess attachments are silently dropped). -/
theorem attachment_mismatch_truncates (c : RawCell) (h : md_attachments c ≠ []) :
    imageCalls (_display_parsing_attachments c) =
      (md_attachments c).take (attachmentSplit (cellSource c)).length ∧
    markdownCalls (_display_parsing_attachments c) = attachmentSplit (cellSource c) := by
  rw [display_attachments_eq_pairSegs c h]
  exact ⟨imageCalls_pairSegs _ _, markdownCalls_pairSegs _ _⟩

/-- C9, witness at a marker-free cell with two attachments: only the first
attachment is rendered, after the single segment. -/
theorem attachment_mismatch_truncates_witness :
    md_attachments mdCellExcessAttachments ≠ [] ∧
    (imageCalls (_display_parsing_attachments mdCellExcessAttachments) =
        (md_attachments mdCellExcessAttachments).take
          (attachmentSplit (cellSource mdCellExcessAttachments)).length ∧
      markdownCalls (_display_parsing_attachments mdCellExcessAttachments) =
        attachmentSplit (cellSource mdCellExcessAttachments)) :=
  ⟨by decide, attachment_mismatch_truncates mdCellExcessAttachments (by decide)⟩

/-- C10: no matcher of the classifier ever emits the `altair_fig` kind, even
though the `display_keys` dispatch table declares an entry for it — that
entry is unreachable from any classified output. -/
theorem altair_fig_never_classified (lang : String) (o : RawOutput)
    (l : List ClassifiedOutput) (co : ClassifiedOutput)
    (h : classifyRecord o = .ok l) (hm : co ∈ l) :
    co.kind ≠ "altair_fig" ∧
    ((display_keys lang).find? (fun p => p.1 == "altair_fig")).isSome = true := by
  refine ⟨?_, rfl⟩
  rcases mem_classify_kinds h hm with hk | hk | hk | hk | hk | hk <;> rw [hk] <;> decide

/-- C10, witness at a classified stream record. -/
theorem altair_fig_never_classified_witness :
    classifyRecord streamRecord = .ok [⟨"stdout", .str "ab"⟩] ∧
    ((⟨"stdout", OutPayload.str "ab"⟩ : ClassifiedOutput).kind ≠ "altair_fig" ∧
      ((display_keys "python").find? (fun p => p.1 == "altair_fig")).isSome = true) :=
  ⟨rfl, altair_fig_never_classified "python" streamRecord _ _ rfl (by decide)⟩

end Strimlitbook
